import Mathlib

/-!
Verification of the uptime-monitoring aggregator.

This file gives a shallow embedding of the parts of the repository that the
verified properties are about, faithful to the Python source:

* `src/services/uptime_kuma.py` — the Backend-B (Uptime Kuma) client, in
  particular the status-reconciliation helpers
  `_determine_status_from_heartbeats`, `_calculate_uptime_from_heartbeats`
  and the response-time / `logs` parts of `_format_monitor`;
* `src/services/uptime_robot.py` — the Backend-A (Uptime Robot) client's
  `add_monitor` validation;
* `src/app.py` — the aggregation routes `get_all_monitors`,
  `add_monitors_to_uptime_robot_status_page` and the Uptime-Kuma status-page
  membership routes.

Python dictionaries with optional keys are modelled with `Option` fields
(`none` = key absent or value `null`); numeric JSON values are modelled as
`Int` (status codes, ids) and `ℚ` (pings, times, computed statistics);
Python exceptions are modelled with `Except` / explicit error results;
network calls are modelled by passing the remote outcome in as an argument
and recording which calls were issued.
-/

/-- A Backend-B heartbeat record, `{status, ping, time}` as fetched by
`get_monitor_beats`.  Each field is optional because the Python code reads
them with `dict.get`. -/
structure Heartbeat where
  status : Option Int
  ping   : Option ℚ
  time   : Option ℚ
deriving DecidableEq

/-- The fields of a raw Backend-B monitor record that the reconciliation
engine consults: `active` (absent key defaults to `True` in the code) and
the record's own `status` field (`none` models both an absent key and a
`null` value, which `_determine_status_from_heartbeats` treats alike). -/
structure KumaMonitor where
  active : Option Bool
  status : Option Int
deriving DecidableEq

/-- `beat.get('time', 0)` — the sort key used in
`_determine_status_from_heartbeats` (line 294 of uptime_kuma.py). -/
def beatTime (b : Heartbeat) : ℚ :=
  b.time.getD 0

/-- The head of `sorted(heartbeats, key=lambda x: x.get('time', 0),
reverse=True)`: the first heartbeat (in received order) attaining the
maximum `time` value, `none` on the empty list.  Python's sort is stable,
so among equal maximal keys the earliest element wins, which is what the
strict comparison in the fold implements. -/
def mostRecentBeat (heartbeats : List Heartbeat) : Option Heartbeat :=
  heartbeats.foldl
    (fun acc b =>
      match acc with
      | none => some b
      | some a => if beatTime a < beatTime b then some b else acc)
    none

/-- `_determine_status_from_heartbeats` (uptime_kuma.py lines 275-319),
translated clause by clause:
1. `if not monitor.get('active', True): return False`;
2. if there are heartbeats, look at the most recent one: status `1` →
   `True`, status `0` or `2` → `False`, anything else falls off the
   `if/elif` chain;
3. `if 'status' in monitor and monitor['status'] is not None`, compare with
   `STATUS_UP = 1`;
4. otherwise `return False`. -/
def determine_status_from_heartbeats (monitor : KumaMonitor)
    (heartbeats : List Heartbeat) : Bool :=
  if ¬ monitor.active.getD true then false
  else
    match mostRecentBeat heartbeats with
    | some most_recent =>
        if most_recent.status = some 1 then true
        else if most_recent.status = some 0 then false
        else if most_recent.status = some 2 then false
        else
          match monitor.status with
          | some status_code => status_code = 1
          | none => false
    | none =>
        match monitor.status with
        | some status_code => status_code = 1
        | none => false

/-- Round a rational to the nearest integer, ties to the even integer —
the rounding applied by Python's fixed-point `format` (on the exact value;
the Python code routes the value through a binary double first, which
agrees except for sub-ulp representation error). -/
def roundHalfEven (q : ℚ) : ℤ :=
  let f : ℤ := ⌊q⌋
  let r : ℚ := q - f
  if r < 1/2 then f
  else if 1/2 < r then f + 1
  else if 2 ∣ f then f else f + 1

/-- Render a non-negative rational with exactly two digits after the
decimal point, as Python's `f"{x:.2f}"` does. -/
def formatFixed2 (q : ℚ) : String :=
  let n : ℤ := roundHalfEven (q * 100)
  let whole : ℤ := n / 100
  let frac : ℕ := (n % 100).toNat
  toString whole ++ "." ++ (if frac < 10 then "0" ++ toString frac else toString frac)

/-- `_calculate_uptime_from_heartbeats` (uptime_kuma.py lines 247-273):
`'N/A'` (modelled as `none`) on an empty heartbeat list, otherwise
`successful_checks / total_checks * 100` formatted with two decimals.
The inner `if total_checks == 0` guard is dead (the empty case already
returned), and the `try/except` wrapper around pure arithmetic never
fires, so neither appears in the model. -/
def calculate_uptime_from_heartbeats (heartbeats : List Heartbeat) : Option String :=
  if heartbeats = [] then none
  else
    some (formatFixed2
      (((heartbeats.filter (fun b => b.status = some 1)).length : ℚ)
        / (heartbeats.length : ℚ) * 100))

/-- The list comprehension at uptime_kuma.py line 214:
`[beat.get('ping', 0) for beat in heartbeats
  if beat.get('ping') is not None and beat.get('ping') > 0]`. -/
def ping_values (heartbeats : List Heartbeat) : List ℚ :=
  heartbeats.filterMap (fun b =>
    match b.ping with
    | some p => if 0 < p then some p else none
    | none => none)

/-- The `avg_response_time` computed in `_format_monitor` (uptime_kuma.py
lines 209-216): `'N/A'` (`none`) unless some heartbeat has a strictly
positive ping, otherwise the mean of those pings.  (The code renders it
with `:.0f`; the model keeps the exact value being rendered.)  The outer
`if heartbeats:` guard is subsumed: an empty list has no positive pings. -/
def avg_response_time (heartbeats : List Heartbeat) : Option ℚ :=
  match ping_values heartbeats with
  | [] => none
  | pv => some (pv.sum / (pv.length : ℚ))

/-- The `current_response_time` computed in `_format_monitor`
(uptime_kuma.py line 217): `ping_values[-1]`, the last element of the
positive-ping list, `'N/A'` (`none`) when that list is empty. -/
def current_response_time (heartbeats : List Heartbeat) : Option ℚ :=
  (ping_values heartbeats).getLast?

/-- The `logs` field of `_format_monitor` (uptime_kuma.py line 244):
`heartbeats[:20] if heartbeats else []`. -/
def format_monitor_logs (heartbeats : List Heartbeat) : List Heartbeat :=
  if heartbeats = [] then [] else heartbeats.take 20

/-- The verdict priority exactly as the specification states it (spec §4.3 /
claim C1): an inactive record is DOWN; otherwise a non-empty heartbeat
sequence is decided by its most-recent-by-time heartbeat, UP exactly when
that heartbeat's status is 1; otherwise a non-null record `status` field
decides (UP iff it equals 1); otherwise DOWN.  Written from the spec's
words for comparison against `determine_status_from_heartbeats`. -/
def verdict_as_claimed (m : KumaMonitor) (heartbeats : List Heartbeat) : Bool :=
  if m.active = some false then false
  else if heartbeats = [] then
    match m.status with
    | some c => decide (c = 1)
    | none => false
  else decide ((mostRecentBeat heartbeats).bind Heartbeat.status = some 1)

/-- The decisive heartbeat status codes of the amended claim: only 0, 1 and
2 on the most-recent heartbeat decide the verdict (1 → UP, 0 and 2 → DOWN);
any other code is indecisive. -/
def heartbeat_code_verdict (s : Int) : Option Bool :=
  if s = 1 then some true
  else if s = 0 ∨ s = 2 then some false
  else none

/-- Claim C1 as amended, written in the spec's priority style: inactive →
DOWN; else the most-recent heartbeat decides only when its status code is
one of 0, 1, 2; in every other case (no heartbeats, missing status on the
most-recent heartbeat, or an indecisive code such as MAINTENANCE = 3) the
record's own `status` field decides (UP iff it equals 1, DOWN when the
field is absent or null). -/
def verdict_amended (m : KumaMonitor) (heartbeats : List Heartbeat) : Bool :=
  if m.active = some false then false
  else
    match ((mostRecentBeat heartbeats).bind Heartbeat.status).bind heartbeat_code_verdict with
    | some v => v
    | none => decide (m.status = some 1)

/-- The "current response time" exactly as the specification words it
(spec §4.3 / claim C2): the `ping` of the most-recent-by-time heartbeat,
independent of whether that value is positive, `'N/A'` (`none`) only when
the heartbeat sequence is empty.  Written from the spec's words for
comparison against `current_response_time`. -/
def current_response_time_as_claimed (heartbeats : List Heartbeat) : Option ℚ :=
  (mostRecentBeat heartbeats).map (fun b => b.ping.getD 0)

/-- The strictly-positive ping values of a heartbeat sequence, in received
order, as the amended claim words it (drop the null pings, keep the
strictly positive ones). -/
def positive_pings (heartbeats : List Heartbeat) : List ℚ :=
  ((heartbeats.map Heartbeat.ping).reduceOption).filter (fun p => 0 < p)

example : mostRecentBeat
    [⟨some 1, some 120, some 100⟩, ⟨some 0, none, some 90⟩, ⟨some 1, some 80, some 110⟩]
    = some ⟨some 1, some 80, some 110⟩ := by decide

example : determine_status_from_heartbeats ⟨some true, none⟩
    [⟨some 1, some 120, some 100⟩, ⟨some 0, none, some 90⟩, ⟨some 1, some 80, some 110⟩]
    = true := by decide

example : calculate_uptime_from_heartbeats
    [⟨some 1, some 120, some 100⟩, ⟨some 0, none, some 90⟩, ⟨some 1, some 80, some 110⟩]
    = some "66.67" := by
  unfold calculate_uptime_from_heartbeats formatFixed2 roundHalfEven
  norm_num [List.filter]
  exact ⟨by decide, by decide⟩

example : current_response_time
    [⟨some 1, some 120, some 100⟩, ⟨some 0, none, some 90⟩, ⟨some 1, some 80, some 110⟩]
    = some 80 := by decide

example : avg_response_time
    [⟨some 1, some 120, some 100⟩, ⟨some 0, none, some 90⟩, ⟨some 1, some 80, some 110⟩]
    = some 100 := by
  unfold avg_response_time ping_values
  norm_num [List.filterMap]

/-- The shape of the JSON replies built by the Flask routes in app.py:
a success flag and an optional error message. -/
structure ApiResponse where
  success : Bool
  error : Option String
deriving DecidableEq

/-- `all_monitors[key] = value` on the two-key dictionary built by
`get_all_monitors` (app.py lines 423-426). -/
def set_monitor_key {α : Type} (d : List (String × List α)) (k : String) (v : List α) :
    List (String × List α) :=
  d.map (fun p => if p.1 = k then (k, v) else p)

/-- `get_all_monitors` (app.py lines 420-442): start from the two-key
dictionary `{'uptime_robot': [], 'uptime_kuma': []}`, then fill each key
from its backend inside its own `try`, leaving the empty list in place when
that backend's fetch raises (any `Exception`, including the "not
configured" `ValueError`, is caught and only logged).  Each backend's
outcome is passed in as an `Except` value. -/
def get_all_monitors {α : Type} (robotResult kumaResult : Except String (List α)) :
    List (String × List α) :=
  let all_monitors : List (String × List α) := [("uptime_robot", []), ("uptime_kuma", [])]
  let d1 :=
    match robotResult with
    | .ok ms => set_monitor_key all_monitors "uptime_robot" ms
    | .error _ => all_monitors
  match kumaResult with
  | .ok ms => set_monitor_key d1 "uptime_kuma" ms
  | .error _ => d1

/-- `add_monitors_to_uptime_kuma_status_page` (app.py lines 594-603): the
route body performs no backend operation at all and returns
`{'success': True}` unconditionally (its `except` branch is dead).  The
second component is the list of backend calls issued. -/
def add_monitors_to_uptime_kuma_status_page (slug : String) (monitor_ids : List Int) :
    ApiResponse × List String :=
  ({ success := true, error := none }, [])

/-- `remove_monitor_from_uptime_kuma_status_page` (app.py lines 606-614):
likewise a pure `{'success': True}` with no backend call. -/
def remove_monitor_from_uptime_kuma_status_page (slug : String) (monitor_id : Int) :
    ApiResponse × List String :=
  ({ success := true, error := none }, [])

/-- An entry of a Backend-A status page's `monitors` list; the route reads
it with `m.get('id')`. -/
structure PageMonitorRef where
  id : Option Int
deriving DecidableEq

/-- A Backend-A status page as the membership routes consult it: its `id`
and its current `monitors` list. -/
structure RobotStatusPage where
  id : Option Int
  monitors : List PageMonitorRef
deriving DecidableEq

/-- `add_monitors_to_uptime_robot_status_page` (app.py lines 494-522):
validate the request, locate the page by id in the fetched listing, build
`updated_monitors = list(set(current_monitors + monitor_ids))` and issue a
single `edit_status_page(page_id, monitors=updated_monitors)` call.  The
second component records the edit calls issued (page id and membership
list).  Python's `set` iterates in an unspecified order; the model fixes
`List.dedup` as the representative — every property proved about the
membership list is order-independent (its set of elements, and freedom
from duplicates), so it holds of any iteration order. -/
def add_monitors_to_uptime_robot_status_page (page_id : Int) (monitor_ids : List Int)
    (pagesResult : Except String (List RobotStatusPage))
    (editResult : Except String Unit) :
    ApiResponse × List (Int × List (Option Int)) :=
  if monitor_ids = [] then
    ({ success := false, error := some "No monitors specified" }, [])
  else
    match pagesResult with
    | .error e => ({ success := false, error := some e }, [])
    | .ok pages =>
        match pages.find? (fun p => p.id = some page_id) with
        | none => ({ success := false, error := some "Status page not found" }, [])
        | some page =>
            let current_monitors := page.monitors.map PageMonitorRef.id
            let updated_monitors := (current_monitors ++ monitor_ids.map some).dedup
            match editResult with
            | .ok _ => ({ success := true, error := none }, [(page_id, updated_monitors)])
            | .error e => ({ success := false, error := some e }, [(page_id, updated_monitors)])

/-- Python's `str.lower()`, modelled characterwise (it agrees with
`Char.toLower` on the ASCII strings this code compares against). -/
def lowercase (s : String) : String :=
  (s.toList.map Char.toLower).asString

/-- The failure modes of a service-layer call: Python's `ValueError`
(validation, raised before any I/O) versus the service's backend exception
(`UptimeRobotException` / `UptimeKumaException`). -/
inductive ServiceFailure
| validationFailure (msg : String)
| backendFailure (msg : String)
deriving DecidableEq

/-- `UptimeRobotService.add_monitor` (uptime_robot.py lines 188-232):
`if not name or not url: raise ValueError` before any request, then one
`_make_request('newMonitor', ...)` whose outcome is passed in as `remote`.
The second component counts the network calls made. -/
def uptime_robot_add_monitor {α : Type} (name url : String)
    (remote : Except String α) : Except ServiceFailure α × Nat :=
  if name = "" ∨ url = "" then
    (.error (.validationFailure "Name and URL are required"), 0)
  else
    match remote with
    | .ok m => (.ok m, 1)
    | .error e => (.error (.backendFailure e), 1)

/-- `UptimeKumaService.add_monitor` (uptime_kuma.py lines 401-454):
`if not name: raise ValueError`; then
`if monitor_type.lower() in ['http', 'https'] and not url: raise
ValueError`; only then is the API session opened and the monitor created
(the whole networked tail — login plus `api.add_monitor` — is summarized
by the `remote` outcome, counted as one network interaction).  `url` is an
`Optional[str]`, and Python's `not url` is true for both `None` and `""`. -/
def uptime_kuma_add_monitor {α : Type} (name : String) (url : Option String)
    (monitor_type : String) (remote : Except String α) : Except ServiceFailure α × Nat :=
  if name = "" then
    (.error (.validationFailure "Monitor name is required"), 0)
  else if (lowercase monitor_type = "http" ∨ lowercase monitor_type = "https")
      ∧ (url = none ∨ url = some "") then
    (.error (.validationFailure "URL is required for HTTP monitors"), 0)
  else
    match remote with
    | .ok m => (.ok m, 1)
    | .error e => (.error (.backendFailure e), 1)

/-- Session bookkeeping events for the Backend-B client: a session id is
acquired by a successful `_get_api` and released by `_disconnect`. -/
inductive SessionEvent
| acquired (s : Nat)
| released (s : Nat)
deriving DecidableEq

/-- The session-relevant state of an `UptimeKumaService` instance:
`self._api` (the cached session, by id), a supply of fresh session ids, and
the trace of acquire/release events so far. -/
structure KumaClientState where
  api : Option Nat
  next : Nat
  trace : List SessionEvent
deriving DecidableEq

/-- `_get_api` (uptime_kuma.py lines 80-121): return the cached session if
one exists; otherwise connect and log in — on success cache and return a
fresh session, on failure (`loginOk = false`) raise, modelled by returning
`none` with the state unchanged. -/
def kuma_get_api (st : KumaClientState) (loginOk : Bool) : Option Nat × KumaClientState :=
  match st.api with
  | some s => (some s, st)
  | none =>
      if loginOk then
        (some st.next,
          { api := some st.next, next := st.next + 1,
            trace := st.trace ++ [SessionEvent.acquired st.next] })
      else (none, st)

/-- `_disconnect` (uptime_kuma.py lines 123-132): disconnect the cached
session if any (a failing `disconnect()` is only logged) and always clear
`self._api`. -/
def kuma_disconnect (st : KumaClientState) : KumaClientState :=
  match st.api with
  | some s =>
      { api := none, next := st.next, trace := st.trace ++ [SessionEvent.released s] }
  | none => { st with api := none }

/-- The `api = None / try: api = self._get_api(); ... / finally: if api:
self._disconnect()` pattern shared by every public `UptimeKumaService`
operation (e.g. `get_monitors`, uptime_kuma.py lines 148-179): if
`_get_api` raises, the local `api` is still `None` and the `finally` block
does nothing; once a session is acquired, the `finally` block disconnects
it on the success and the failure path alike.  The body's outcome is passed
in as `work`. -/
def kuma_operation {α : Type} (st : KumaClientState) (loginOk : Bool)
    (work : Except String α) : Except String α × KumaClientState :=
  match kuma_get_api st loginOk with
  | (none, st1) => (.error "Failed to initialize API", st1)
  | (some _, st1) =>
      (match work with
       | .ok a => .ok a
       | .error e => .error e,
       kuma_disconnect st1)

/-- C1: the reconciliation verdict for a Backend-B record follows the
claimed strict priority (inactive → DOWN; else non-empty heartbeats are
decided by the most-recent heartbeat with 1 → UP and everything else of
{0,2} → DOWN; else the record status field; else DOWN).  REFUTED: when the
most-recent heartbeat carries a status outside {0,1,2} (here MAINTENANCE =
3) the heartbeat does not decide — the code falls through to the record's
`status` field, so two records with identical heartbeats get different
verdicts, and the code's verdict differs from the claimed priority at this
input. -/
theorem c1_claim_counterexample :
    determine_status_from_heartbeats ⟨none, some 1⟩ [⟨some 3, none, some 0⟩] = true
    ∧ verdict_as_claimed ⟨none, some 1⟩ [⟨some 3, none, some 0⟩] = false
    ∧ determine_status_from_heartbeats ⟨none, none⟩ [⟨some 3, none, some 0⟩] = false := by
  decide

/-- C1 (amended): the verdict follows the strict priority with the decisive
heartbeat codes restricted to {0, 1, 2}: inactive → DOWN; else a
most-recent heartbeat with status 1 → UP, status 0 or 2 → DOWN; in every
other case (no heartbeats, or an indecisive/missing most-recent status) the
record's non-null `status` field decides (UP iff 1), defaulting to DOWN. -/
theorem c1_amended_theorem (m : KumaMonitor) (heartbeats : List Heartbeat) :
    determine_status_from_heartbeats m heartbeats = verdict_amended m heartbeats := by
  unfold determine_status_from_heartbeats verdict_amended
  by_cases hf : m.active = some false
  · have h1 : ¬ m.active.getD true := by rw [hf]; simp
    simp [hf, h1]
  · have h1 : m.active.getD true := by
      cases hma : m.active with
      | none => simp
      | some b =>
          cases b with
          | false => exact absurd hma hf
          | true => simp
    rw [if_neg (not_not_intro h1), if_neg hf]
    cases hmr : mostRecentBeat heartbeats with
    | none => cases m.status <;> simp
    | some b =>
        cases hbs : b.status with
        | none => cases m.status <;> simp [hbs]
        | some s =>
            by_cases hs1 : s = 1
            · simp [hbs, hs1, heartbeat_code_verdict]
            · by_cases hs0 : s = 0
              · simp [hbs, hs0, heartbeat_code_verdict]
              · by_cases hs2 : s = 2
                · simp [hbs, hs2, hs1, heartbeat_code_verdict]
                · cases m.status <;>
                    simp [hbs, hs1, hs0, hs2, heartbeat_code_verdict]

/-- C10: when the record is not explicitly inactive and the most-recent
heartbeat of a non-empty sequence carries a status outside {0, 1, 2}, that
heartbeat does not decide the verdict: `_determine_status_from_heartbeats`
falls through to the record's own `status` field, returning UP iff that
field is present, non-null and equal to 1, and DOWN otherwise. -/
theorem c10_indecisive_status_falls_through
    (m : KumaMonitor) (heartbeats : List Heartbeat) (b : Heartbeat) (s : Int)
    (hact : m.active ≠ some false)
    (hmr : mostRecentBeat heartbeats = some b)
    (hs : b.status = some s)
    (hs0 : s ≠ 0) (hs1 : s ≠ 1) (hs2 : s ≠ 2) :
    determine_status_from_heartbeats m heartbeats = decide (m.status = some 1) := by
  unfold determine_status_from_heartbeats
  have h1 : m.active.getD true := by
    cases hma : m.active with
    | none => simp
    | some bb =>
        cases bb with
        | false => exact absurd hma hact
        | true => simp
  rw [if_neg (not_not_intro h1), hmr]
  simp only [hs]
  cases m.status <;> simp [hs0, hs1, hs2]

/-- Witness for C10 at a concrete input: an active monitor whose record
status is 1 and whose single heartbeat carries the MAINTENANCE code 3. -/
theorem c10_witness :
    ((⟨none, some 1⟩ : KumaMonitor).active ≠ some false)
    ∧ mostRecentBeat [(⟨some 3, none, some 5⟩ : Heartbeat)] = some ⟨some 3, none, some 5⟩
    ∧ ((⟨some 3, none, some 5⟩ : Heartbeat).status = some 3)
    ∧ determine_status_from_heartbeats ⟨none, some 1⟩ [⟨some 3, none, some 5⟩]
        = decide ((⟨none, some 1⟩ : KumaMonitor).status = some 1) :=
  ⟨by decide, by decide, by decide,
    c10_indecisive_status_falls_through ⟨none, some 1⟩ [⟨some 3, none, some 5⟩]
      ⟨some 3, none, some 5⟩ 3 (by decide) (by decide) (by decide)
      (by decide) (by decide) (by decide)⟩

lemma ping_values_eq_positive_pings (heartbeats : List Heartbeat) :
    ping_values heartbeats = positive_pings heartbeats := by
  induction heartbeats with
  | nil => rfl
  | cons b t ih =>
      unfold ping_values positive_pings at *
      cases hp : b.ping with
      | none => simpa [hp, List.reduceOption_cons_of_none] using ih
      | some p =>
          by_cases h0 : 0 < p
          · simpa [hp, h0, List.reduceOption_cons_of_some] using ih
          · simpa [hp, h0, List.reduceOption_cons_of_some] using ih

/-- C2: the formatted monitor's average response time is the mean of the
strictly positive pings ('N/A' when there is none) and its current response
time is the ping of the most-recent-by-time heartbeat regardless of sign,
'N/A' only on an empty heartbeat sequence.  REFUTED on the "current" half:
the code takes `ping_values[-1]`, the last strictly-positive ping in
received order.  At the first input below the most-recent heartbeat (time
200) has ping 5 but the code reports 7; at the second, non-empty input the
code reports 'N/A' because its only ping is not positive. -/
theorem c2_claim_counterexample :
    current_response_time [⟨some 1, some 5, some 200⟩, ⟨some 1, some 7, some 100⟩] = some 7
    ∧ current_response_time_as_claimed
        [⟨some 1, some 5, some 200⟩, ⟨some 1, some 7, some 100⟩] = some 5
    ∧ current_response_time [⟨some 1, some 0, some 10⟩] = none
    ∧ ([(⟨some 1, some 0, some 10⟩ : Heartbeat)] ≠ []) := by
  decide

/-- C2 (amended): the average response time is the mean over the heartbeats
with a strictly positive ping, 'N/A' when no such heartbeat exists; the
current response time is the LAST strictly-positive ping in the order the
heartbeats were received (not the most-recent-by-time one), and it is 'N/A'
whenever no strictly positive ping exists — not only on the empty
sequence. -/
theorem c2_amended_theorem (heartbeats : List Heartbeat) :
    avg_response_time heartbeats =
      (match positive_pings heartbeats with
       | [] => none
       | pv => some (pv.sum / (pv.length : ℚ)))
    ∧ current_response_time heartbeats = (positive_pings heartbeats).getLast? := by
  unfold avg_response_time current_response_time
  rw [ping_values_eq_positive_pings]
  exact ⟨rfl, rfl⟩

/-- C3: the uptime percentage of a non-empty heartbeat sequence is
(count of status-1 heartbeats) / (total count) × 100 rendered with exactly
two decimal places, 'N/A' for the empty sequence, and the result is
invariant under any reordering of the sequence. -/
theorem c3_uptime_theorem (hbs hbs' : List Heartbeat) (hperm : hbs.Perm hbs') :
    calculate_uptime_from_heartbeats hbs = calculate_uptime_from_heartbeats hbs'
    ∧ calculate_uptime_from_heartbeats hbs =
        (if hbs = [] then none
         else some (formatFixed2
           ((hbs.countP (fun b => b.status = some 1) : ℚ) / (hbs.length : ℚ) * 100))) := by
  constructor
  · unfold calculate_uptime_from_heartbeats
    by_cases h : hbs = []
    · subst h
      have h2 : hbs' = [] := hperm.symm.eq_nil
      simp [h2]
    · have h2 : hbs' ≠ [] := fun he => h ((he ▸ hperm).eq_nil)
      rw [if_neg h, if_neg h2]
      have hlenf :
          (hbs.filter (fun b => b.status = some 1)).length
            = (hbs'.filter (fun b => b.status = some 1)).length :=
        (hperm.filter _).length_eq
      have hlen : hbs.length = hbs'.length := hperm.length_eq
      rw [hlenf, hlen]
  · unfold calculate_uptime_from_heartbeats
    by_cases h : hbs = []
    · simp [h]
    · rw [if_neg h, if_neg h]
      rw [List.countP_eq_length_filter]

/-- Witness for C3: the spec's example heartbeat sequence (two UP, one
DOWN, uptime "66.67") and a shuffle of it. -/
theorem c3_uptime_witness :
    (([⟨some 1, some 120, some 100⟩, ⟨some 0, none, some 90⟩,
        ⟨some 1, some 80, some 110⟩] : List Heartbeat).Perm
      [⟨some 1, some 80, some 110⟩, ⟨some 1, some 120, some 100⟩,
        ⟨some 0, none, some 90⟩])
    ∧ (calculate_uptime_from_heartbeats
          [⟨some 1, some 120, some 100⟩, ⟨some 0, none, some 90⟩,
            ⟨some 1, some 80, some 110⟩]
        = calculate_uptime_from_heartbeats
          [⟨some 1, some 80, some 110⟩, ⟨some 1, some 120, some 100⟩,
            ⟨some 0, none, some 90⟩]
      ∧ calculate_uptime_from_heartbeats
          [⟨some 1, some 120, some 100⟩, ⟨some 0, none, some 90⟩,
            ⟨some 1, some 80, some 110⟩]
        = (if ([⟨some 1, some 120, some 100⟩, ⟨some 0, none, some 90⟩,
              ⟨some 1, some 80, some 110⟩] : List Heartbeat) = [] then none
           else some (formatFixed2
             ((([⟨some 1, some 120, some 100⟩, ⟨some 0, none, some 90⟩,
                  ⟨some 1, some 80, some 110⟩] : List Heartbeat).countP
                  (fun b => b.status = some 1) : ℚ)
               / (([⟨some 1, some 120, some 100⟩, ⟨some 0, none, some 90⟩,
                    ⟨some 1, some 80, some 110⟩] : List Heartbeat).length : ℚ) * 100)))) :=
  ⟨by decide,
    c3_uptime_theorem
      [⟨some 1, some 120, some 100⟩, ⟨some 0, none, some 90⟩, ⟨some 1, some 80, some 110⟩]
      [⟨some 1, some 80, some 110⟩, ⟨some 1, some 120, some 100⟩, ⟨some 0, none, some 90⟩]
      (by decide)⟩

/-- C8: the formatted monitor's `logs` field has length exactly
min(20, number of heartbeats) and consists of the first 20 heartbeats in
the order received from the backend. -/
theorem c8_recent_log_theorem (heartbeats : List Heartbeat) :
    (format_monitor_logs heartbeats).length = min 20 heartbeats.length
    ∧ format_monitor_logs heartbeats = heartbeats.take 20 := by
  unfold format_monitor_logs
  by_cases h : heartbeats = []
  · subst h; simp
  · rw [if_neg h]
    exact ⟨List.length_take _ _, rfl⟩

/-- C4: for every combination of backend outcomes, the combined monitor
listing has exactly the two keys `uptime_robot` and `uptime_kuma`, a failed
backend contributes an empty list for its key, a succeeded backend
contributes its list, and the operation is total (a single backend's
failure never escapes: each fetch is wrapped in its own
try/except-and-log). -/
theorem c4_get_all_monitors_theorem {α : Type}
    (robotResult kumaResult : Except String (List α)) :
    (get_all_monitors robotResult kumaResult).map Prod.fst = ["uptime_robot", "uptime_kuma"]
    ∧ (get_all_monitors robotResult kumaResult).lookup "uptime_robot"
        = some (match robotResult with | .ok ms => ms | .error _ => [])
    ∧ (get_all_monitors robotResult kumaResult).lookup "uptime_kuma"
        = some (match kumaResult with | .ok ms => ms | .error _ => []) := by
  cases robotResult <;> cases kumaResult <;>
    simp [get_all_monitors, set_monitor_key, List.lookup]

/-- C5: contrary to the claim (and to spec §4.2/§4.4, which require these
Backend-B membership operations to be surfaced as no-op/"not supported"),
both routes report `success: True` while issuing no backend call at all —
the membership change is reported as performed although nothing happened.
This evaluates the code on every input, exhibiting the divergence. -/
theorem c5_kuma_page_membership_reports_success
    (slug : String) (monitor_ids : List Int) (monitor_id : Int) :
    add_monitors_to_uptime_kuma_status_page slug monitor_ids
        = ({ success := true, error := none }, [])
    ∧ remove_monitor_from_uptime_kuma_status_page slug monitor_id
        = ({ success := true, error := none }, []) :=
  ⟨rfl, rfl⟩

/-- C6: for a non-empty request on a page found in the listing, the add
operation issues exactly one edit call, and its membership list — viewed as
a set — is the union of the page's current member ids and the requested
ids, with no duplicates. -/
theorem c6_add_monitors_union_theorem (page_id : Int) (monitor_ids : List Int)
    (pages : List RobotStatusPage) (editResult : Except String Unit)
    (page : RobotStatusPage)
    (hne : monitor_ids ≠ [])
    (hfind : pages.find? (fun p => p.id = some page_id) = some page) :
    ∃ updated : List (Option Int),
      (add_monitors_to_uptime_robot_status_page page_id monitor_ids
          (.ok pages) editResult).2 = [(page_id, updated)]
      ∧ updated.toFinset
          = (page.monitors.map PageMonitorRef.id).toFinset
              ∪ (monitor_ids.map some).toFinset
      ∧ updated.Nodup := by
  refine ⟨((page.monitors.map PageMonitorRef.id) ++ monitor_ids.map some).dedup,
    ?_, ?_, ?_⟩
  · unfold add_monitors_to_uptime_robot_status_page
    rw [if_neg hne]
    simp only [hfind]
    cases editResult <;> rfl
  · ext a
    simp [List.mem_toFinset, List.mem_dedup, List.mem_append]
  · exact List.nodup_dedup _

/-- Witness for C6: the spec scenario — a page with members {1,2}, adding
{2,3}, yields membership {1,2,3}. -/
theorem c6_add_monitors_union_witness :
    (([2, 3] : List Int) ≠ [])
    ∧ ([(⟨some 10, [⟨some 1⟩, ⟨some 2⟩]⟩ : RobotStatusPage)].find?
        (fun p => p.id = some 10) = some ⟨some 10, [⟨some 1⟩, ⟨some 2⟩]⟩)
    ∧ (∃ updated : List (Option Int),
        (add_monitors_to_uptime_robot_status_page 10 [2, 3]
            (.ok [⟨some 10, [⟨some 1⟩, ⟨some 2⟩]⟩]) (.ok ())).2 = [(10, updated)]
        ∧ updated.toFinset
            = ((⟨some 10, [⟨some 1⟩, ⟨some 2⟩]⟩ : RobotStatusPage).monitors.map
                PageMonitorRef.id).toFinset ∪ (([2, 3] : List Int).map some).toFinset
        ∧ updated.Nodup)
    ∧ ((([(⟨some 1⟩ : PageMonitorRef), ⟨some 2⟩].map PageMonitorRef.id)
          ++ ([2, 3] : List Int).map some).dedup
        = [some 1, some 2, some 3]) :=
  ⟨by decide, by decide,
    c6_add_monitors_union_theorem 10 [2, 3] [⟨some 10, [⟨some 1⟩, ⟨some 2⟩]⟩]
      (.ok ()) ⟨some 10, [⟨some 1⟩, ⟨some 2⟩]⟩ (by decide) (by decide),
    by decide⟩

/-- C7: an empty name makes `add_monitor` fail with a validation error and
zero network calls on either backend, and Backend B's `add_monitor` also
fails with a validation error and zero network calls when the monitor type
is HTTP/HTTPS (case-insensitively) and the url is absent or empty. -/
theorem c7_add_monitor_validation_theorem {α : Type} :
    (∀ (url : String) (remote : Except String α),
        uptime_robot_add_monitor "" url remote
          = (.error (.validationFailure "Name and URL are required"), 0))
    ∧ (∀ (url : Option String) (monitor_type : String) (remote : Except String α),
        uptime_kuma_add_monitor "" url monitor_type remote
          = (.error (.validationFailure "Monitor name is required"), 0))
    ∧ (∀ (name : String) (url : Option String) (monitor_type : String)
          (remote : Except String α),
        name ≠ "" →
        (lowercase monitor_type = "http" ∨ lowercase monitor_type = "https") →
        (url = none ∨ url = some "") →
        uptime_kuma_add_monitor name url monitor_type remote
          = (.error (.validationFailure "URL is required for HTTP monitors"), 0)) := by
  refine ⟨?_, ?_, ?_⟩
  · intro url remote
    unfold uptime_robot_add_monitor
    rw [if_pos (Or.inl rfl)]
  · intro url monitor_type remote
    unfold uptime_kuma_add_monitor
    rw [if_pos rfl]
  · intro name url monitor_type remote hname htype hurl
    unfold uptime_kuma_add_monitor
    rw [if_neg hname, if_pos ⟨htype, hurl⟩]

/-- Witness for C7: the spec scenario `addMonitor(name="",
url="https://x.com")` on both backends, and an HTTPS-typed Backend-B
monitor with no url. -/
theorem c7_add_monitor_validation_witness :
    (uptime_robot_add_monitor (α := Nat) "" "https://x.com" (.ok 0)
        = (.error (.validationFailure "Name and URL are required"), 0))
    ∧ (uptime_kuma_add_monitor (α := Nat) "" (some "https://x.com") "http" (.ok 0)
        = (.error (.validationFailure "Monitor name is required"), 0))
    ∧ (("x" : String) ≠ ""
        ∧ (lowercase "HTTPS" = "http" ∨ lowercase "HTTPS" = "https")
        ∧ ((none : Option String) = none ∨ (none : Option String) = some "")
        ∧ uptime_kuma_add_monitor (α := Nat) "x" none "HTTPS" (.ok 0)
            = (.error (.validationFailure "URL is required for HTTP monitors"), 0)) :=
  ⟨c7_add_monitor_validation_theorem.1 "https://x.com" (.ok 0),
    c7_add_monitor_validation_theorem.2.1 (some "https://x.com") "http" (.ok 0),
    by decide, by decide, by decide,
    c7_add_monitor_validation_theorem.2.2 "x" none "HTTPS" (.ok 0)
      (by decide) (by decide) (by decide)⟩

/-- C9: starting from a state with no cached session (as every logical call
does, see the last conjunct), any Backend-B operation ends with no cached
session on every exit path; when login fails no session is ever opened and
the state is untouched; when login succeeds the operation acquires exactly
one fresh session — one never seen in the earlier trace — and releases it
before returning, on success and failure of the work alike; and the
freshness invariant is preserved, so no session id is ever reused across
logical calls. -/
theorem c9_session_discipline_theorem {α : Type} (st : KumaClientState)
    (loginOk : Bool) (work : Except String α)
    (hapi : st.api = none)
    (hfresh : ∀ s, SessionEvent.acquired s ∈ st.trace → s < st.next) :
    ((kuma_operation st loginOk work).2.api = none)
    ∧ (loginOk = false → (kuma_operation st loginOk work).2 = st)
    ∧ (loginOk = true →
        (kuma_operation st loginOk work).2.trace
            = st.trace ++ [SessionEvent.acquired st.next, SessionEvent.released st.next]
        ∧ (kuma_operation st loginOk work).2.next = st.next + 1
        ∧ SessionEvent.acquired st.next ∉ st.trace)
    ∧ (∀ s, SessionEvent.acquired s ∈ (kuma_operation st loginOk work).2.trace
        → s < (kuma_operation st loginOk work).2.next) := by
  cases loginOk with
  | false =>
      have hop : kuma_operation st false work = (.error "Failed to initialize API", st) := by
        unfold kuma_operation kuma_get_api
        rw [hapi]
        rfl
      refine ⟨by rw [hop]; exact hapi, fun _ => by rw [hop], ?_, ?_⟩
      · intro h; exact absurd h (by decide)
      · rw [hop]; exact hfresh
  | true =>
      have hop : (kuma_operation st true work).2
          = { api := none, next := st.next + 1,
              trace := st.trace
                ++ [SessionEvent.acquired st.next, SessionEvent.released st.next] } := by
        unfold kuma_operation kuma_get_api kuma_disconnect
        rw [hapi]
        simp
      refine ⟨by rw [hop], ?_, ?_, ?_⟩
      · intro h; exact absurd h (by decide)
      · intro _
        refine ⟨by rw [hop], by rw [hop], ?_⟩
        exact fun hmem => absurd (hfresh _ hmem) (lt_irrefl _)
      · intro s hs
        rw [hop] at hs ⊢
        simp only [List.mem_append, List.mem_cons, List.not_mem_nil, or_false] at hs
        rcases hs with h | h | h
        · exact Nat.lt_succ_of_lt (hfresh s h)
        · rw [SessionEvent.acquired.injEq] at h
          subst h
          exact Nat.lt_succ_self _
        · exact absurd h (by simp)

/-- Witness for C9: one operation run from a pristine client state with a
successful login and a successful body. -/
theorem c9_session_discipline_witness :
    ((⟨none, 0, []⟩ : KumaClientState).api = none)
    ∧ (((kuma_operation (⟨none, 0, []⟩ : KumaClientState) true
            (.ok (42 : Nat))).2.api = none)
      ∧ (true = false →
          (kuma_operation (⟨none, 0, []⟩ : KumaClientState) true (.ok 42)).2
            = ⟨none, 0, []⟩)
      ∧ (true = true →
          (kuma_operation (⟨none, 0, []⟩ : KumaClientState) true (.ok 42)).2.trace
              = ([] : List SessionEvent)
                ++ [SessionEvent.acquired 0, SessionEvent.released 0]
          ∧ (kuma_operation (⟨none, 0, []⟩ : KumaClientState) true (.ok 42)).2.next = 0 + 1
          ∧ SessionEvent.acquired 0 ∉ ([] : List SessionEvent))
      ∧ (∀ s, SessionEvent.acquired s
            ∈ (kuma_operation (⟨none, 0, []⟩ : KumaClientState) true (.ok 42)).2.trace
          → s < (kuma_operation (⟨none, 0, []⟩ : KumaClientState) true (.ok 42)).2.next)) :=
  ⟨rfl, c9_session_discipline_theorem ⟨none, 0, []⟩ true (.ok 42) rfl
    (fun s hmem => absurd hmem (List.not_mem_nil _))⟩
